import Mathlib

/-!
Verification development for the SmartRoute.ai frontend.

The repository is a React single-page application.  The parts the claims
are about — the submission handler in `RouteOptimizerPage.jsx` (three
revisions are present in the repository), the rendering helpers in
`RouteSummary.jsx`, and the Google-Maps `MapDisplay` component — are
embedded below as executable Lean definitions.  JavaScript dynamic
values are modelled by `JVal`, JavaScript numbers (which may be `NaN`
or infinite) by `JsNum`, and code that can throw a `TypeError` returns
`Except String`.
-/

set_option autoImplicit false

namespace SmartRoute

/-- A JavaScript number: `NaN`, `Infinity`, `-Infinity`, or a finite
value (modelled as an exact rational). -/
inductive JsNum where
  | nan
  | posInf
  | negInf
  | val (q : ℚ)
  deriving DecidableEq, Repr

/-- A JavaScript value as it appears on the wire / in the component
props: `null`, `undefined`, booleans, numbers, strings, arrays and
plain objects (association lists with distinct keys). -/
inductive JVal where
  | jnull
  | jundefined
  | jbool (b : Bool)
  | jnum (n : JsNum)
  | jstr (s : String)
  | jarr (elems : List JVal)
  | jobj (fields : List (String × JVal))
  deriving Repr

/-- JavaScript truthiness: `null`, `undefined`, `false`, `0`, `NaN` and
the empty string are falsy; every other value is truthy. -/
def truthy : JVal → Bool
  | .jnull => false
  | .jundefined => false
  | .jbool b => b
  | .jnum .nan => false
  | .jnum (.val q) => decide (q ≠ 0)
  | .jnum _ => true
  | .jstr s => decide (s ≠ "")
  | .jarr _ => true
  | .jobj _ => true

/-- All characters are decimal digits. -/
def allDigits (cs : List Char) : Bool := cs.all Char.isDigit

/-- Numeric value of a digit string. -/
def digitsVal (cs : List Char) : ℕ := cs.foldl (fun a c => a * 10 + (c.toNat - 48)) 0

/-- Whitespace trimming (over the character list, as `String.trim`). -/
def jsTrim (s : String) : String :=
  String.mk (((s.data.dropWhile Char.isWhitespace).reverse.dropWhile Char.isWhitespace).reverse)

/-- `Number(string)` coercion for decimal numerals (the only numeral
forms this backend produces): optional sign, digits, optional fraction;
the empty (trimmed) string is `0`; anything else is `NaN`. -/
def parseNumber (s : String) : JsNum :=
  let t := jsTrim s
  if t = "" then .val 0
  else
    let (sign, body) : ℚ × List Char :=
      match t.data with
      | '-' :: rest => (-1, rest)
      | '+' :: rest => (1, rest)
      | cs => (1, cs)
    if body = "Infinity".data then (if sign = 1 then .posInf else .negInf)
    else
      let ipart := body.takeWhile (fun c => c != '.')
      let rest := body.drop ipart.length
      match rest with
      | [] =>
        if ipart ≠ [] ∧ allDigits ipart then .val (sign * digitsVal ipart) else .nan
      | '.' :: fpart =>
        if allDigits ipart ∧ allDigits fpart ∧ (ipart ≠ [] ∨ fpart ≠ []) then
          .val (sign * ((digitsVal ipart : ℚ) + (digitsVal fpart : ℚ) / 10 ^ fpart.length))
        else .nan
      | _ => .nan

/-- `ToNumber` coercion: `null ↦ 0`, `undefined ↦ NaN`, booleans to
`0`/`1`, strings via `parseNumber`, arrays via their primitive
(joined) form, objects to `NaN`. -/
def toNumber : JVal → JsNum
  | .jnull => .val 0
  | .jundefined => .nan
  | .jbool b => .val (if b then 1 else 0)
  | .jnum n => n
  | .jstr s => parseNumber s
  | .jarr [] => .val 0
  | .jarr [x] =>
    match x with
    | .jnull => .val 0
    | .jundefined => .val 0
    | .jnum n => n
    | .jstr s => parseNumber s
    | _ => .nan
  | .jarr _ => .nan
  | .jobj _ => .nan

/-- JavaScript division (used as `x / 60`). -/
def jsDiv (a b : JsNum) : JsNum :=
  match a, b with
  | .nan, _ => .nan
  | _, .nan => .nan
  | .posInf, .posInf => .nan
  | .posInf, .negInf => .nan
  | .negInf, .posInf => .nan
  | .negInf, .negInf => .nan
  | .posInf, .val q => if q < 0 then .negInf else .posInf
  | .negInf, .val q => if q < 0 then .posInf else .negInf
  | .val _, .posInf => .val 0
  | .val _, .negInf => .val 0
  | .val p, .val q =>
    if q = 0 then (if p = 0 then .nan else if p > 0 then .posInf else .negInf)
    else .val (p / q)

/-- Truncation toward zero, as JavaScript `%` uses. -/
def ratTrunc (q : ℚ) : ℤ := if 0 ≤ q then ⌊q⌋ else -⌊-q⌋

/-- JavaScript remainder (`x % 60`): sign of the dividend. -/
def jsMod (a b : JsNum) : JsNum :=
  match a, b with
  | .nan, _ => .nan
  | _, .nan => .nan
  | .posInf, _ => .nan
  | .negInf, _ => .nan
  | .val p, .posInf => .val p
  | .val p, .negInf => .val p
  | .val p, .val q => if q = 0 then .nan else .val (p - q * (ratTrunc (p / q) : ℚ))

/-- `Math.floor`; `NaN` and the infinities are fixed points. -/
def jsFloor : JsNum → JsNum
  | .val q => .val (⌊q⌋ : ℚ)
  | x => x

/-- `Math.round`: `⌊x + 1/2⌋` (ties toward `+∞`); `NaN` and the
infinities are fixed points. -/
def jsRound : JsNum → JsNum
  | .val q => .val (⌊q + 1/2⌋ : ℚ)
  | x => x

/-- The comparison `x > 0` (false for `NaN`). -/
def jsGtZero : JsNum → Bool
  | .nan => false
  | .posInf => true
  | .negInf => false
  | .val q => decide (0 < q)

/-- Decimal expansion of a fraction in `[0,1)`, up to `fuel` digits
(exact for every value a JavaScript double can take). -/
def decimalFrac : ℕ → ℚ → String
  | 0, _ => ""
  | fuel + 1, q =>
    if q = 0 then ""
    else
      let d : ℤ := ⌊q * 10⌋
      toString d ++ decimalFrac fuel (q * 10 - (d : ℚ))

/-- JavaScript `Number → String`. -/
def jsNumToString : JsNum → String
  | .nan => "NaN"
  | .posInf => "Infinity"
  | .negInf => "-Infinity"
  | .val q =>
    if q.den = 1 then toString q.num
    else
      let sign := if q < 0 then "-" else ""
      let a := |q|
      sign ++ toString ⌊a⌋ ++ "." ++ decimalFrac 20 (a - (⌊a⌋ : ℚ))

/-- `Number.prototype.toFixed(d)` on a finite value: round `q·10^d` to
the nearer integer, larger on ties, then print with `d` decimals. -/
def toFixedStr (q : ℚ) (d : ℕ) : String :=
  let n : ℤ := ⌊q * 10 ^ d + 1/2⌋
  let sign := if q < 0 then "-" else ""
  let cs := (toString n.natAbs).data
  if d = 0 then sign ++ String.mk cs
  else
    let cs := if cs.length < d + 1 then List.replicate (d + 1 - cs.length) '0' ++ cs else cs
    sign ++ String.mk (cs.take (cs.length - d)) ++ "." ++ String.mk (cs.drop (cs.length - d))

/-- Message of the `TypeError` thrown when reading a property of
`null`/`undefined`. -/
def readErrorMessage (base k : String) : String :=
  "TypeError: Cannot read properties of " ++ base ++ " (reading " ++ k ++ ")"

/-- First binding of a key in an object literal (keys are distinct). -/
def jlookup : List (String × JVal) → String → JVal
  | [], _ => .jundefined
  | (k, v) :: rest, key => if k = key then v else jlookup rest key

/-- Property read `v.k`: throws a `TypeError` on `null`/`undefined`,
yields `undefined` for a missing key or a primitive receiver. -/
def jget : JVal → String → Except String JVal
  | .jnull, k => .error (readErrorMessage "null" k)
  | .jundefined, k => .error (readErrorMessage "undefined" k)
  | .jobj fs, k => .ok (jlookup fs k)
  | _, _ => .ok .jundefined

/-- Property read in a position where the receiver is known not to be
`null`/`undefined` (e.g. behind a truthiness guard or `?.`). -/
def jaccess (v : JVal) (k : String) : JVal :=
  match v with
  | .jobj fs => jlookup fs k
  | _ => .jundefined

/-- JavaScript `ToString` (as a template literal `${v}` applies it):
arrays join their elements with `,` where `null`/`undefined` elements
print as empty, objects print `[object Object]`. -/
def jvalToString : JVal → String
  | .jnull => "null"
  | .jundefined => "undefined"
  | .jbool b => if b then "true" else "false"
  | .jnum n => jsNumToString n
  | .jstr s => s
  | .jobj _ => "[object Object]"
  | .jarr xs => String.intercalate "," (arrayElems xs)
where
  /-- The element strings `Array.prototype.join` sees: `null` and
  `undefined` print as empty. -/
  arrayElems : List JVal → List String
  | [] => []
  | x :: rest =>
    (match x with
      | .jnull => ""
      | .jundefined => ""
      | v => jvalToString v) :: arrayElems rest

/-- Stringification an array element receives inside `Array.prototype.join`:
`null` and `undefined` become empty, everything else its `ToString`. -/
def joinElemString : JVal → String
  | .jnull => ""
  | .jundefined => ""
  | v => jvalToString v

/-- `Array.prototype.join(sep)`; calling `join` on a non-array throws. -/
def jsJoin (v : JVal) (sep : String) : Except String String :=
  match v with
  | .jarr xs => .ok (String.intercalate sep (xs.map joinElemString))
  | _ => .error "TypeError: join is not a function"

/-- Minimal JSON string escaping. -/
def jsonEscape (s : String) : String :=
  s.data.foldl (fun acc c =>
    acc ++ (if c = '"' then "\\\"" else if c = '\\' then "\\\\" else String.mk [c])) ""

/-- `JSON.stringify`; `undefined` at the top level yields no string
(`undefined` inside arrays serializes as `null`). -/
def jsonStringify : JVal → Option String
  | .jundefined => none
  | .jnull => some "null"
  | .jbool b => some (if b then "true" else "false")
  | .jnum .nan => some "null"
  | .jnum .posInf => some "null"
  | .jnum .negInf => some "null"
  | .jnum (.val q) => some (jsNumToString (.val q))
  | .jstr s => some ("\"" ++ jsonEscape s ++ "\"")
  | .jarr xs => some ("[" ++ String.intercalate "," (arrayParts xs) ++ "]")
  | .jobj fs => some ("\x7b" ++ String.intercalate "," (objParts fs) ++ "\x7d")
where
  arrayParts : List JVal → List String
  | [] => []
  | x :: rest => (jsonStringify x).getD "null" :: arrayParts rest
  objParts : List (String × JVal) → List String
  | [] => []
  | (k, v) :: rest =>
    ("\"" ++ jsonEscape k ++ "\":" ++ (jsonStringify v).getD "null") :: objParts rest

/-- Method call `v.toFixed(d)`: defined on numbers only; on any other
receiver the property is `undefined` and the call throws. -/
def jsToFixed (v : JVal) (d : ℕ) : Except String String :=
  match v with
  | .jnum (.val q) => .ok (toFixedStr q d)
  | .jnum .nan => .ok "NaN"
  | .jnum .posInf => .ok "Infinity"
  | .jnum .negInf => .ok "-Infinity"
  | _ => .error "TypeError: toFixed is not a function"

/-!
## Revision 1 of `RouteOptimizerPage.jsx`: the response transformation

`handleOptimizeRoute` (lines 13–50 of the first revision) receives the
backend result and builds the object handed to `RouteSummary` /
`MapDisplay` by direct field access on `backendResult.summary` and
`backendResult.charging_locations` — it probes no alternative nesting
paths, and a shape mismatch throws a `TypeError` that the surrounding
`try`/`catch` converts into the user-visible error message.
-/

/-- One entry of `formattedForSummary.chargingStops` (revision 1,
lines 31–38).  `name`, `location` and `cost` are stored untranslated
(the `||` operator yields a `JVal`), the rest are template strings. -/
structure FormattedStop where
  name : JVal
  type : String
  power : String
  location : JVal
  chargeTime : String
  cost : JVal

/-- The object `formattedForSummary` built by revision 1 of
`handleOptimizeRoute` (lines 22–40). -/
structure FormattedSummary where
  totalDistance : String
  estimatedTime : String
  totalDrivingTime : String
  totalChargingTime : String
  chargingStops : List FormattedStop
  routeGeometry : JVal

/-- The duration pattern of lines 24–30:
`v ? `${Math.floor(v / 60)}h ${Math.round(v % 60)}m` : 'N/A'`. -/
def pageDurationField (v : JVal) : String :=
  if truthy v then
    jsNumToString (jsFloor (jsDiv (toNumber v) (.val 60))) ++ "h " ++
      jsNumToString (jsRound (jsMod (toNumber v) (.val 60))) ++ "m"
  else "N/A"

/-- Line 23: `v ? `${v.toFixed(1)} km` : 'N/A'`. -/
def pageDistanceField (v : JVal) : Except String String :=
  if truthy v then do
    let s ← jsToFixed v 1
    pure (s ++ " km")
  else pure "N/A"

/-- The per-stop mapping of lines 31–38. -/
def formatStop (stop : JVal) : Except String FormattedStop := do
  let name ← jget stop "name"
  let ct ← jget stop "connection_types"
  let type ←
    if truthy ct then jsJoin ct ", " else pure "Unknown"
  let power ← jget stop "power_kw"
  let powerStr := if truthy power then jvalToString power ++ " kW" else "N/A"
  let addr ← jget stop "address"
  let location := if truthy addr then addr else JVal.jstr "Unknown Address"
  let rcm ← jget stop "recommended_charge_minutes"
  let chargeTime := if truthy rcm then jvalToString rcm ++ " mins" else "N/A"
  let uc ← jget stop "usage_cost"
  let isFree ← jget stop "is_free"
  let cost := if truthy uc then uc
    else if truthy isFree then JVal.jstr "Free" else JVal.jstr "Not Specified"
  pure ⟨name, type, powerStr, location, chargeTime, cost⟩

/-- `backendResult.charging_locations.map(stop => ...)`: `.map` exists
on arrays only. -/
def mapStops (locs : JVal) : Except String (List FormattedStop) :=
  match locs with
  | .jarr xs => xs.mapM formatStop
  | _ => .error "TypeError: map is not a function"

/-- The whole `formattedForSummary` construction (revision 1, lines
22–40), with the fields evaluated in source order so that the first
`TypeError` wins. -/
def formatForSummary (backendResult : JVal) : Except String FormattedSummary := do
  let summary ← jget backendResult "summary"
  let dist ← jget summary "total_distance_km"
  let totalDistance ← pageDistanceField dist
  let dur ← jget summary "total_duration_minutes"
  let drive ← jget summary "total_driving_minutes"
  let charge ← jget summary "total_charging_minutes"
  let locs ← jget backendResult "charging_locations"
  let stops ← mapStops locs
  let geom ← jget backendResult "route_geometry"
  pure
    { totalDistance := totalDistance
      estimatedTime := pageDurationField dur
      totalDrivingTime := pageDurationField drive
      totalChargingTime := pageDurationField charge
      chargingStops := stops
      routeGeometry := geom }

/-!
## The submission state machine of `RouteOptimizerPage` (revision 1)
-/

/-- The three `useState` slots of `RouteOptimizerPage`. -/
structure PageState where
  loading : Bool
  error : Option String
  routeResult : Option FormattedSummary

/-- Lines 14–16: `setLoading(true); setError(null); setRouteResult(null)`
run before the request is issued. -/
def startSubmit (_s : PageState) : PageState :=
  { loading := true, error := none, routeResult := none }

/-- Line 46: `setError(err.message || "Failed to optimize route. Please try again.")`. -/
def fallbackErrorMessage : String := "Failed to optimize route. Please try again."

/-- `err.message || fallback`: an empty message falls back. -/
def caughtMessage (m : String) : String :=
  if m = "" then fallbackErrorMessage else m

/-- The rest of revision 1's `handleOptimizeRoute`: the awaited call
either rejects (modelled `.error m`) or yields the raw response; the
transformation may itself throw; `catch` records the message and
`finally` clears the loading flag. -/
def settleMock (p : PageState) (outcome : Except String JVal) : PageState :=
  match outcome with
  | .error m => { p with loading := false, error := some (caughtMessage m) }
  | .ok raw =>
    match formatForSummary raw with
    | .ok f => { p with loading := false, routeResult := some f }
    | .error m => { p with loading := false, error := some (caughtMessage m) }

/-- A submission attempt fails when the request rejects or the
transformation of the raw response throws. -/
def submissionFailed (outcome : Except String JVal) : Bool :=
  match outcome with
  | .error _ => true
  | .ok raw => !(formatForSummary raw).isOk

/-!
## `RouteSummary.jsx`: the rendering helpers

The current revision of the component receives `data` and renders each
summary line; `formatMinutes` is its lines 14–24.
-/

/-- The strict checks `v === null || v === undefined`. -/
def isNullish : JVal → Bool
  | .jnull => true
  | .jundefined => true
  | _ => false

/-- `formatMinutes` (lines 14–24): `null`/`undefined` render `"N/A"`,
otherwise `hours = Math.floor(v / 60)`, `minutes = Math.round(v % 60)`,
rendered `"{hours}h {minutes}m"` when `hours > 0`, else `"{minutes}m"`. -/
def formatMinutes (totalMinutes : JVal) : String :=
  if isNullish totalMinutes then "N/A"
  else
    let hours := jsFloor (jsDiv (toNumber totalMinutes) (.val 60))
    let minutes := jsRound (jsMod (toNumber totalMinutes) (.val 60))
    if jsGtZero hours then
      jsNumToString hours ++ "h " ++ jsNumToString minutes ++ "m"
    else jsNumToString minutes ++ "m"

/-- Text React produces for a value rendered as a child; rendering a
plain object is an error (`none`), `null`/`undefined`/booleans render
as nothing, arrays render each child in order. -/
def reactText : JVal → Option String
  | .jnull => some ""
  | .jundefined => some ""
  | .jbool _ => some ""
  | .jnum n => some (jsNumToString n)
  | .jstr s => some s
  | .jobj _ => none
  | .jarr xs => childParts xs
where
  childParts : List JVal → Option String
  | [] => some ""
  | x :: rest => do
    let s ← reactText x
    let r ← childParts rest
    pure (s ++ r)

/-- Line 30: `data.totalDistanceKm ? data.totalDistanceKm.toFixed(2) : 'N/A'`
(the trailing ` km` is literal text outside the expression). -/
def renderTotalDistanceValue (v : JVal) : Except String String :=
  if truthy v then jsToFixed v 2 else pure "N/A"

/-- Line 45: `data.estimatedChargingStops !== undefined ?
data.estimatedChargingStops : 'N/A'`, then rendered by React. -/
def renderChargingStopsValue : JVal → Option String
  | .jundefined => some "N/A"
  | v => reactText v

/-- Line 46: `data.totalEnergyConsumptionKwh ?
data.totalEnergyConsumptionKwh.toFixed(2) : 'N/A'`. -/
def renderEnergyValue (v : JVal) : Except String String :=
  if truthy v then jsToFixed v 2 else pure "N/A"

/-- Line 47: `data.finalChargePercent !== undefined ?
`${data.finalChargePercent}%` : 'N/A'`. -/
def renderFinalChargeValue : JVal → String
  | .jundefined => "N/A"
  | v => jvalToString v ++ "%"

/-!
## Revision 2 of `RouteOptimizerPage.jsx`: the fetch error path

Lines 97–135 of the second revision issue the request and classify
failures; lines 105–121 build `errorDetail` from a non-2xx response.
-/

/-- An HTTP response as the handler observes it: the `ok` flag, the
status code, and the outcome of `await response.json()` (which throws
on a non-JSON body, carrying the parse error message). -/
structure HttpResponse where
  ok : Bool
  status : ℕ
  body : Except String JVal

/-- What `await fetch(...)` produced: a network-level rejection (a
`TypeError` with the given message) or a response. -/
inductive FetchOutcome where
  | fetchFailed (message : String)
  | response (r : HttpResponse)

/-- Is the value an array (`Array.isArray`)? -/
def isArray : JVal → Bool
  | .jarr _ => true
  | _ => false

/-- Line 111's arrow function: `err => `${err.loc.join('.')} - ${err.msg}``. -/
def validationPartOfEntry (e : JVal) : Except String String := do
  let loc ← jget e "loc"
  let joined ← jsJoin loc "."
  let msg ← jget e "msg"
  pure (joined ++ " - " ++ jvalToString msg)

/-- The inner `try` of lines 107–115: read `errorData.detail`; on a 422
with an array `detail`, join the per-field messages
(`err.loc.join('.') + ' - ' + err.msg`, entries joined by `'; '`);
otherwise `errorData.detail || JSON.stringify(errorData) || default`.
Any `TypeError` along the way propagates to the inner `catch`. -/
def errorDetailOfBody (status : ℕ) (errorData : JVal) : Except String String := do
  let detail ← jget errorData "detail"
  if status = 422 ∧ isArray detail then
    match detail with
    | .jarr xs => do
      let parts ← xs.mapM validationPartOfEntry
      pure (String.intercalate "; " parts)
    | _ => pure ""
  else
    if truthy detail then pure (jvalToString detail)
    else
      match jsonStringify errorData with
      | some s => pure (if s = "" then fallbackErrorMessage else s)
      | none => pure fallbackErrorMessage

/-- Lines 105–120: the message of the `Error` thrown for a non-ok
response.  A body that fails to parse — or a `TypeError` while probing
`detail` — lands in the inner `catch` (`"HTTP error! status: N"`). -/
def buildErrorDetail (status : ℕ) (body : Except String JVal) : String :=
  match body with
  | .error _ => "HTTP error! status: " ++ toString status
  | .ok errorData =>
    match errorDetailOfBody status errorData with
    | .ok s => s
    | .error _ => "HTTP error! status: " ++ toString status

/-- Revision 2's `useState` slots; here the raw parsed JSON is stored
as the result. -/
structure FetchPageState where
  loading : Bool
  error : Option String
  routeResult : Option JVal

/-- Does `needle` occur inside `hay` (`String.prototype.includes`)? -/
def strContains (hay needle : String) : Bool :=
  (List.range (hay.data.length + 1)).any fun i => needle.data.isPrefixOf (hay.data.drop i)

/-- Line 129: the message for a connection failure. -/
def connectionErrorMessage : String :=
  "Unable to connect to the backend server. Please ensure the server is running and accessible."

/-- Line 131's fallback. -/
def fetchFallbackMessage : String := "Failed to optimize route. Please check your inputs."

/-- Lines 97–135 after `startSubmit`: settle the fetch.  A thrown
`Error` reaches the outer `catch`, which shows the connection message
only for a `TypeError` mentioning `fetch`. -/
def settleFetch (p : FetchPageState) (o : FetchOutcome) : FetchPageState :=
  match o with
  | .fetchFailed m =>
    { p with
      loading := false
      error := some (if strContains m "fetch" then connectionErrorMessage
        else if m = "" then fetchFallbackMessage else m) }
  | .response r =>
    if r.ok then
      match r.body with
      | .ok j => { p with loading := false, routeResult := some j }
      | .error m =>
        { p with loading := false
                 error := some (if m = "" then fetchFallbackMessage else m) }
    else
      let d := buildErrorDetail r.status r.body
      { p with loading := false
               error := some (if d = "" then fetchFallbackMessage else d) }

/-!
## The Google-Maps `MapDisplay` component (second revision of the
`RouteSummary.jsx` concatenation, lines 56–271)

The main effect (lines 92–251): create the map once, then either clear
every overlay and restore the default view (when the guard of line 114
fails) or draw the polyline, the start/end markers and the charging
markers, fitting the viewport to the path plus the charging stops.
The effect returns a cleanup (lines 240–249) that detaches every
overlay; React runs it before re-executing the effect, so the update
seen for a new `routeData` is cleanup followed by the body.
-/

/-- A `{lat, lon}` coordinate from the wire. -/
structure GeoCoord where
  lat : ℚ
  lon : ℚ
  deriving DecidableEq, Repr

/-- `routeData.route_details` as the effect consumes it. -/
structure RouteDetails where
  route_geometry : Option (List GeoCoord)
  charging_locations_coords : Option (List GeoCoord)
  deriving DecidableEq, Repr

/-- `routeData` as the effect consumes it (line 114 also tests the
`success` flag). -/
structure RouteData where
  success : Bool
  route_details : Option RouteDetails
  deriving DecidableEq, Repr

/-- The overlays currently attached to the map: the polyline with its
path, the two route markers, and the charging markers in route order. -/
structure Overlays where
  polyline : Option (List GeoCoord)
  startMarker : Option GeoCoord
  endMarker : Option GeoCoord
  chargingMarkers : List GeoCoord
  deriving DecidableEq, Repr

/-- No overlays attached. -/
def Overlays.empty : Overlays := ⟨none, none, none, []⟩

/-- The viewport: either an explicitly set center/zoom or the result of
`fitBounds` over a point set. -/
inductive MapCamera where
  | explicitView (center : GeoCoord) (zoom : ℚ)
  | fittedTo (pts : List GeoCoord)
  deriving DecidableEq, Repr

/-- The default center (line 102 / line 128): the center of India,
zoom 5. -/
def indiaCenter : GeoCoord := ⟨20.5937, 78.9629⟩

/-- Attached overlays plus viewport: the observable state of the map. -/
structure MapScene where
  camera : MapCamera
  overlays : Overlays
  deriving DecidableEq, Repr

/-- The scene after construction or after the no-route branch. -/
def idleScene : MapScene := ⟨.explicitView indiaCenter 5, .empty⟩

/-- The guard of line 114, returning the drawable geometry when it
passes: data present, `success` truthy, `route_details` and
`route_geometry` present, at least two points. -/
def drawableGeometry (d : Option RouteData) : Option (List GeoCoord) :=
  match d with
  | none => none
  | some rd =>
    if !rd.success then none
    else match rd.route_details with
      | none => none
      | some det =>
        match det.route_geometry with
        | none => none
        | some g => if g.length < 2 then none else some g

/-- The charging coordinates the data carries (lines 138, 200–223):
absent or empty both draw nothing. -/
def chargingCoords (d : Option RouteData) : List GeoCoord :=
  match d with
  | some rd =>
    match rd.route_details with
    | some det => (det.charging_locations_coords).getD []
    | none => []
  | none => []

/-- The effect cleanup (lines 240–249): every overlay is detached from
the map; the viewport is untouched. -/
def effectCleanup (s : MapScene) : MapScene :=
  { s with overlays := .empty }

/-- The effect body after map creation (lines 113–237).  The no-route
branch detaches everything and restores the default view; the drawing
branch sets the polyline path, positions the start marker at `path[0]`
and the end marker at `path[path.length - 1]`, clears then recreates
the charging markers, and fits the viewport to the path extended by
the charging coordinates. -/
def effectBody (_s : MapScene) (d : Option RouteData) : MapScene :=
  match drawableGeometry d with
  | none => idleScene
  | some path =>
    { camera := .fittedTo (path ++ chargingCoords d)
      overlays :=
        { polyline := some path
          startMarker := path.head?
          endMarker := path.getLast?
          chargingMarkers := chargingCoords d } }

/-- One re-run of the effect for a new `routeData`: React executes the
previous run's cleanup, then the body. -/
def mapUpdate (s : MapScene) (d : Option RouteData) : MapScene :=
  effectBody (effectCleanup s) d

/-!
## Map-instance lifecycle and the page-level `key` (claim C4)

Inside one mounted `MapDisplay`, lines 98–111 create the map only when
`mapInstanceRef.current` is empty, so the instance survives effect
re-runs.  Revision 3 of `RouteOptimizerPage.jsx` (lines 230–233 of the
concatenation), however, passes
`key={routeResult ? `map-with-route-${routeResult.route_summary?.total_distance_km}` : 'map-no-route'}`,
and React re-mounts a component whose key changed, discarding the old
instance and creating a new one.
-/

/-- The per-mount state that decides instance creation: the API-ready
flag and `mapInstanceRef` (instances carry an identifier so that reuse
is observable). -/
structure MapComp where
  apiReady : Bool
  mapInstance : Option ℕ
  deriving DecidableEq, Repr

/-- Lines 94–111 of the effect: bail out until the API is ready, then
create the map exactly when `mapInstanceRef.current` is empty.  `next`
supplies fresh instance identifiers. -/
def effectInit (next : ℕ) (c : MapComp) : ℕ × MapComp :=
  if !c.apiReady then (next, c)
  else
    match c.mapInstance with
    | some _ => (next, c)
    | none => (next + 1, { c with mapInstance := some next })

/-- The `key` expression of lines 230–233. -/
def mapDisplayKey (routeResult : JVal) : String :=
  if truthy routeResult then
    "map-with-route-" ++
      jvalToString (jaccess (jaccess routeResult "route_summary") "total_distance_km")
  else "map-no-route"

/-- A mounted `MapDisplay` as the page sees it: its `key` and its
component state. -/
structure KeyedMapDisplay where
  key : String
  comp : MapComp
  deriving DecidableEq, Repr

/-- One page render with a new `routeResult`: an unchanged key keeps
the mounted component (its effect re-runs); a changed key re-mounts it
with fresh state, destroying the old instance. -/
def pageRender (next : ℕ) (p : KeyedMapDisplay) (routeResult : JVal) :
    ℕ × KeyedMapDisplay :=
  let k := mapDisplayKey routeResult
  if k = p.key then
    let (next', c') := effectInit next p.comp
    (next', ⟨k, c'⟩)
  else
    let (next', c') := effectInit next ⟨true, none⟩
    (next', ⟨k, c'⟩)

/-!
## Helper lemmas
-/

/-- Equality of `Except` results is decidable (used to evaluate the
embedded functions at concrete inputs). -/
instance {ε α : Type} [DecidableEq ε] [DecidableEq α] : DecidableEq (Except ε α) := by
  intro a b
  cases a <;> cases b
  case error.error e f => exact decidable_of_iff (e = f) (by simp)
  case ok.ok x y => exact decidable_of_iff (x = y) (by simp)
  all_goals exact .isFalse (by simp)

theorem toNumber_jnum (n : JsNum) : toNumber (.jnum n) = n := rfl

theorem jsDiv_val_sixty (m : ℚ) : jsDiv (.val m) (.val 60) = .val (m / 60) := by
  norm_num [jsDiv]

theorem jsMod_val_sixty (m : ℚ) :
    jsMod (.val m) (.val 60) = .val (m - 60 * (ratTrunc (m / 60) : ℚ)) := by
  norm_num [jsMod]

theorem ratTrunc_of_nonneg {q : ℚ} (h : 0 ≤ q) : ratTrunc q = ⌊q⌋ := by
  simp [ratTrunc, h]

theorem jsNumToString_intCast (k : ℤ) : jsNumToString (.val (k : ℚ)) = toString k := by
  simp [jsNumToString, Rat.den_intCast, Rat.num_intCast]

/-!
## Claim theorems
-/

/-- **C10.** In the Route Summary View, a present numeric `0` for total
distance or total energy consumption renders as `"N/A"` (the truthiness
test of lines 30 and 46 cannot tell `0` from absent), while the
charging-stop count of line 45, tested with `!== undefined`, renders
`0` as `"0"`, distinct from the `"N/A"` it shows when absent. -/
theorem c10_zero_renders_as_absent :
    renderTotalDistanceValue (.jnum (.val 0)) = .ok "N/A" ∧
    renderEnergyValue (.jnum (.val 0)) = .ok "N/A" ∧
    renderTotalDistanceValue .jundefined = .ok "N/A" ∧
    renderEnergyValue .jundefined = .ok "N/A" ∧
    renderChargingStopsValue (.jnum (.val 0)) = some "0" ∧
    renderChargingStopsValue .jundefined = some "N/A" ∧
    renderChargingStopsValue (.jnum (.val 0)) ≠ renderChargingStopsValue .jundefined := by
  decide

/-- **C7 counterexample.** A present charging-stop count of `0` is
rendered as the bare string `"0"` (line 45 interpolates the number
after the label), not as the literal `"0 stops"` the claim states. -/
theorem c7_counterexample :
    renderChargingStopsValue (.jnum (.val 0)) = some "0" ∧
    renderChargingStopsValue (.jnum (.val 0)) ≠ some "0 stops" := by
  decide

/-- **C7 (amended).** A present charging-stop count of `0` renders as
`"0"` (after the "Estimated Charging Stops" label), which is distinct
from the `"N/A"` rendered when the count is absent. -/
theorem c7_zero_count_distinct :
    renderChargingStopsValue (.jnum (.val 0)) = some "0" ∧
    renderChargingStopsValue .jundefined = some "N/A" ∧
    renderChargingStopsValue (.jnum (.val 0)) ≠ renderChargingStopsValue .jundefined := by
  decide

/-- **C9.** Whenever a new result has no drawable geometry (the guard
of line 114: fewer than two path points, or the geometry/details/
success flag missing), the effect clears every overlay and resets the
center and zoom to the fixed default view. -/
theorem c9_no_geometry_resets_to_idle (s : MapScene) (d : Option RouteData)
    (h : drawableGeometry d = none) :
    mapUpdate s d = idleScene := by
  simp [mapUpdate, effectBody, h]

theorem c9_witness :
    drawableGeometry (some ⟨true, some ⟨some [⟨10, 70⟩], some [⟨11, 71⟩]⟩⟩) = none ∧
    mapUpdate ⟨.fittedTo [⟨1, 2⟩], ⟨some [⟨1, 2⟩, ⟨3, 4⟩], some ⟨1, 2⟩, some ⟨3, 4⟩, [⟨5, 6⟩]⟩⟩
      (some ⟨true, some ⟨some [⟨10, 70⟩], some [⟨11, 71⟩]⟩⟩) = idleScene :=
  ⟨by decide,
    c9_no_geometry_resets_to_idle
      ⟨.fittedTo [⟨1, 2⟩], ⟨some [⟨1, 2⟩, ⟨3, 4⟩], some ⟨1, 2⟩, some ⟨3, 4⟩, [⟨5, 6⟩]⟩⟩
      (some ⟨true, some ⟨some [⟨10, 70⟩], some [⟨11, 71⟩]⟩⟩) (by decide)⟩

/-- **C2.** On every transition into `RouteDrawn` (a new result whose
geometry passes the guard), the previous run's cleanup detaches the
prior polyline and all prior markers before the body draws; the drawn
overlays are exactly those of the new result, so after a result with
stops is followed by a result with zero stops, no charging markers
remain. -/
theorem c2_prior_overlays_removed (s : MapScene) (d : Option RouteData)
    (path : List GeoCoord) (h : drawableGeometry d = some path) :
    (effectCleanup s).overlays = Overlays.empty ∧
    (mapUpdate s d).overlays =
      ⟨some path, path.head?, path.getLast?, chargingCoords d⟩ ∧
    (chargingCoords d = [] → (mapUpdate s d).overlays.chargingMarkers = []) := by
  refine ⟨rfl, ?_, ?_⟩ <;> simp [mapUpdate, effectBody, h]

theorem c2_witness :
    drawableGeometry (some ⟨true, some ⟨some [⟨1, 2⟩, ⟨3, 4⟩], some []⟩⟩) =
      some [⟨1, 2⟩, ⟨3, 4⟩] ∧
    (mapUpdate ⟨.fittedTo [], ⟨some [⟨9, 9⟩], some ⟨9, 9⟩, some ⟨8, 8⟩, [⟨7, 7⟩]⟩⟩
      (some ⟨true, some ⟨some [⟨1, 2⟩, ⟨3, 4⟩], some []⟩⟩)).overlays.chargingMarkers = [] :=
  ⟨by decide,
    (c2_prior_overlays_removed ⟨.fittedTo [], ⟨some [⟨9, 9⟩], some ⟨9, 9⟩, some ⟨8, 8⟩, [⟨7, 7⟩]⟩⟩
      (some ⟨true, some ⟨some [⟨1, 2⟩, ⟨3, 4⟩], some []⟩⟩) [⟨1, 2⟩, ⟨3, 4⟩]
      (by decide)).2.2 (by decide)⟩

/-- The component state of a freshly mounted `MapDisplay` once the
mapping API is ready, after its first effect run (instance `0`). -/
def c4Initial : KeyedMapDisplay := ⟨mapDisplayKey .jnull, (effectInit 0 ⟨true, none⟩).2⟩

/-- A subsequent `RouteResult` whose `route_summary.total_distance_km`
is `350`. -/
def c4NewResult : JVal :=
  .jobj [("route_summary", .jobj [("total_distance_km", .jnum (.val 350))])]

/-- **C4 counterexample.** Revision 3 of `RouteOptimizerPage.jsx` keys
`MapDisplay` by the route result (lines 230–233), so the arrival of a
`RouteResult` changes the key from `map-no-route` to
`map-with-route-350`, re-mounting the component: the drawing surface is
destroyed and a fresh instance (`1`) is created instead of reusing the
one built at mount (`0`). -/
theorem c4_counterexample :
    c4Initial.comp.mapInstance = some 0 ∧
    c4Initial.key = "map-no-route" ∧
    (pageRender 1 c4Initial c4NewResult).2.key = "map-with-route-350" ∧
    (pageRender 1 c4Initial c4NewResult).2.comp.mapInstance = some 1 ∧
    (some 1 : Option ℕ) ≠ some 0 := by
  decide

/-- **C4 (amended).** Within one mounted `MapDisplay`, lines 98–111
construct the drawing surface exactly once — when the mapping API is
ready and no instance exists — and every later effect run reuses that
instance; but the page keys the component by the route result, so only
renders whose key is unchanged keep the instance, while a result that
changes the key re-mounts the component and recreates the surface. -/
theorem c4_instance_reused_within_mount (next : ℕ) (c : MapComp) (i : ℕ)
    (h : c.mapInstance = some i) :
    effectInit next c = (next, c) ∧
    (∀ p : KeyedMapDisplay, ∀ r : JVal, p.comp = c → mapDisplayKey r = p.key →
      (pageRender next p r).2.comp.mapInstance = some i) ∧
    (∀ n : ℕ, effectInit n ⟨true, none⟩ = (n + 1, ⟨true, some n⟩)) := by
  obtain ⟨ready, inst⟩ := c
  simp only [MapComp.mk.injEq] at h
  refine ⟨?_, ?_, fun n => rfl⟩
  · cases ready <;> simp [effectInit, h]
  · intro p r hpc hk
    simp [pageRender, hk, hpc, h]
    cases ready <;> simp [effectInit]

theorem c4_witness :
    effectInit 5 ⟨true, some 3⟩ = (5, ⟨true, some 3⟩) :=
  (c4_instance_reused_within_mount 5 ⟨true, some 3⟩ 3 rfl).1

/-- **C5.** At the start of every submission (lines 14–16) the prior
result is cleared before the request is issued — the pending state has
no result and no error and shows the loading indicator — and on every
failure the settled state has the loading indicator cleared, a single
populated error message, and the result still cleared. -/
theorem c5_submission_boundary (s : PageState) (o : Except String JVal) :
    (startSubmit s).routeResult = none ∧
    (startSubmit s).error = none ∧
    (startSubmit s).loading = true ∧
    (settleMock (startSubmit s) o).loading = false ∧
    (submissionFailed o = true →
      (settleMock (startSubmit s) o).error.isSome = true ∧
      (settleMock (startSubmit s) o).routeResult = none) := by
  refine ⟨rfl, rfl, rfl, ?_, ?_⟩
  · cases o with
    | error m => rfl
    | ok raw => cases h : formatForSummary raw <;> simp [settleMock, h]
  · intro hf
    cases o with
    | error m => simp [settleMock, startSubmit]
    | ok raw =>
      cases h : formatForSummary raw with
      | error m => simp [settleMock, startSubmit, h]
      | ok f => simp [submissionFailed, h, Except.isOk, Except.toBool] at hf

theorem c5_witness :
    submissionFailed (.error "boom") = true ∧
    (settleMock (startSubmit ⟨false, none, none⟩) (.error "boom")).error.isSome = true ∧
    (settleMock (startSubmit ⟨false, none, none⟩) (.error "boom")).routeResult = none :=
  ⟨rfl,
    ((c5_submission_boundary ⟨false, none, none⟩ (.error "boom")).2.2.2.2 rfl).1,
    ((c5_submission_boundary ⟨false, none, none⟩ (.error "boom")).2.2.2.2 rfl).2⟩

/-- **C1 counterexample.** The transformation probes no alternative
nesting paths: on a response matching no known shape (here the empty
object) it throws a `TypeError` while reading
`backendResult.summary.total_distance_km` — it does not produce a
result with all fields absent. -/
theorem c1_counterexample :
    formatForSummary (.jobj []) =
      .error (readErrorMessage "undefined" "total_distance_km") ∧
    (formatForSummary (.jobj [])).isOk = false := by
  exact ⟨rfl, rfl⟩

/-- **C1 (amended).** The handler expects the single
`summary`/`charging_locations` shape; a raw response for which the
transformation throws is recovered at the submission boundary — the
caught message becomes the single user-visible error, the result stays
cleared and loading is cleared, so the UI does not crash — but no
all-fields-absent `RouteResult` is produced. -/
theorem c1_unmatched_shape_surfaces_error (s : PageState) (raw : JVal) (m : String)
    (h : formatForSummary raw = .error m) :
    settleMock (startSubmit s) (.ok raw) =
      { loading := false, error := some (caughtMessage m), routeResult := none } := by
  simp [settleMock, startSubmit, h]

theorem c1_witness :
    formatForSummary (.jobj []) =
      .error (readErrorMessage "undefined" "total_distance_km") ∧
    settleMock (startSubmit ⟨false, none, none⟩) (.ok (.jobj [])) =
      { loading := false,
        error := some (caughtMessage (readErrorMessage "undefined" "total_distance_km")),
        routeResult := none } :=
  ⟨rfl, c1_unmatched_shape_surfaces_error ⟨false, none, none⟩ (.jobj []) _ rfl⟩

/-- A backend response whose `total_duration_minutes` is the
non-numeric string `"abc"` (distance absent, no charging stops). -/
def c3raw : JVal :=
  .jobj [("summary", .jobj [("total_duration_minutes", .jstr "abc")]),
         ("charging_locations", .jarr [])]

/-- **C3 counterexample.** A truthy non-numeric wire value is not
mapped to absent: with `total_duration_minutes = "abc"` the normalized
`estimatedTime` is the NaN rendering `"NaNh NaNm"`, not `"N/A"`. -/
theorem c3_counterexample :
    (formatForSummary c3raw).toOption.map FormattedSummary.estimatedTime =
      some "NaNh NaNm" ∧
    (formatForSummary c3raw).toOption.map FormattedSummary.estimatedTime ≠
      some "N/A" := by
  decide

/-- **C3 (amended).** For the numeric fields the submission handler
normalizes (total distance and the three duration fields), a null — or
any other falsy wire value, including `NaN` and `0` — normalizes to
absent (`"N/A"`), never to a `0` or `NaN` rendering; truthy non-numeric
values are not protected by this test. -/
theorem c3_falsy_normalizes_to_absent (v : JVal) (h : truthy v = false) :
    pageDurationField v = "N/A" ∧ pageDistanceField v = .ok "N/A" := by
  simp [pageDurationField, pageDistanceField, h]
  rfl

theorem c3_witness :
    truthy .jnull = false ∧ pageDurationField .jnull = "N/A" ∧
    pageDistanceField .jnull = .ok "N/A" :=
  ⟨rfl, (c3_falsy_normalizes_to_absent .jnull rfl).1,
    (c3_falsy_normalizes_to_absent .jnull rfl).2⟩

/-- `formatMinutes` on a nonnegative finite number, with the floor and
round spelt out. -/
theorem formatMinutes_val (m : ℚ) (h : 0 ≤ m) :
    formatMinutes (.jnum (.val m)) =
      if 0 < ⌊m / 60⌋ then
        toString ⌊m / 60⌋ ++ "h " ++ toString ⌊m - 60 * (⌊m / 60⌋ : ℚ) + 1/2⌋ ++ "m"
      else toString ⌊m - 60 * (⌊m / 60⌋ : ℚ) + 1/2⌋ ++ "m" := by
  have hdiv : 0 ≤ m / 60 := by positivity
  simp only [formatMinutes, isNullish, toNumber, jsDiv_val_sixty, jsMod_val_sixty,
    ratTrunc_of_nonneg hdiv, jsFloor, jsRound, jsGtZero, jsNumToString_intCast,
    Bool.false_eq_true, if_false, decide_eq_true_eq, Int.cast_pos]

/-- **C6.** Duration rendering by the Route Summary View
(`formatMinutes`, lines 14–24): an absent (`null`/`undefined`) value
renders `"N/A"`; a value of at least one whole hour renders
`"{H}h {M}m"` with `H` the whole hours and `M` the rounded remaining
minutes; a value under one hour renders `"{M}m"`; in particular `0`
renders `"0m"` and `75` renders `"1h 15m"`. -/
theorem c6_duration_rendering :
    formatMinutes .jnull = "N/A" ∧
    formatMinutes .jundefined = "N/A" ∧
    (∀ m : ℚ, 60 ≤ m →
      formatMinutes (.jnum (.val m)) =
        toString ⌊m / 60⌋ ++ "h " ++ toString ⌊m - 60 * (⌊m / 60⌋ : ℚ) + 1/2⌋ ++ "m") ∧
    (∀ m : ℚ, 0 ≤ m → m < 60 →
      formatMinutes (.jnum (.val m)) = toString ⌊m + 1/2⌋ ++ "m") ∧
    formatMinutes (.jnum (.val 0)) = "0m" ∧
    formatMinutes (.jnum (.val 75)) = "1h 15m" := by
  refine ⟨rfl, rfl, ?_, ?_, ?_, ?_⟩
  · intro m hm
    have h0 : (0 : ℚ) ≤ m := le_trans (by norm_num) hm
    have hfl : 0 < ⌊m / 60⌋ := by
      have h1 : (1 : ℚ) ≤ m / 60 := (one_le_div (by norm_num : (0:ℚ) < 60)).mpr hm
      have h2 : (1 : ℤ) ≤ ⌊m / 60⌋ := Int.le_floor.mpr (by exact_mod_cast h1)
      omega
    rw [formatMinutes_val m h0, if_pos hfl]
  · intro m hm0 hm60
    have hfl : ⌊m / 60⌋ = 0 := by
      apply Int.floor_eq_zero_iff.mpr
      constructor
      · exact div_nonneg hm0 (by norm_num)
      · exact (div_lt_one (by norm_num : (0:ℚ) < 60)).mpr hm60
    rw [formatMinutes_val m hm0, if_neg (by omega), hfl]
    norm_num
  · rw [formatMinutes_val 0 le_rfl]
    have h1 : ⌊(0 : ℚ) / 60⌋ = 0 := by norm_num
    rw [h1]
    have h2 : ⌊(0 : ℚ) - 60 * ((0 : ℤ) : ℚ) + 1/2⌋ = 0 := by norm_num
    rw [if_neg (by omega), h2]
    rfl
  · rw [formatMinutes_val 75 (by norm_num)]
    have h1 : ⌊(75 : ℚ) / 60⌋ = 1 := by
      rw [Int.floor_eq_iff]; norm_num
    rw [h1]
    have h2 : ⌊(75 : ℚ) - 60 * ((1 : ℤ) : ℚ) + 1/2⌋ = 15 := by
      rw [Int.floor_eq_iff]; norm_num
    rw [if_pos (by omega), h2]
    rfl

theorem c6_witness :
    (60 : ℚ) ≤ 75 ∧ formatMinutes (.jnum (.val 75)) = "1h 15m" := by
  refine ⟨by norm_num, ?_⟩
  rw [c6_duration_rendering.2.2.1 75 (by norm_num)]
  have h1 : ⌊(75 : ℚ) / 60⌋ = 1 := by
    rw [Int.floor_eq_iff]; norm_num
  rw [h1]
  have h2 : ⌊(75 : ℚ) - 60 * ((1 : ℤ) : ℚ) + 1/2⌋ = 15 := by
    rw [Int.floor_eq_iff]; norm_num
  rw [h2]
  rfl

/-- The wire shape of one FastAPI validation entry `{loc, msg}`. -/
def mkValidationEntry (d : List String × String) : JVal :=
  .jobj [("loc", .jarr (d.1.map .jstr)), ("msg", .jstr d.2)]

/-- The wire shape of a 422 body: `{detail: [{loc, msg}, ...]}`. -/
def mkValidationBody (ds : List (List String × String)) : JVal :=
  .jobj [("detail", .jarr (ds.map mkValidationEntry))]

/-- The message the spec expects for a 422 `detail` array: per-field
messages `loc.join('.') - msg`, joined by `'; '`. -/
def joinedValidation (ds : List (List String × String)) : String :=
  String.intercalate "; " (ds.map fun d => String.intercalate "." d.1 ++ " - " ++ d.2)

theorem jsJoin_strings (locs : List String) (sep : String) :
    jsJoin (.jarr (locs.map .jstr)) sep = .ok (String.intercalate sep locs) := by
  have hcomp : (fun s => joinElemString (.jstr s)) = fun s : String => s :=
    funext fun s => rfl
  simp [jsJoin, List.map_map, Function.comp_def, hcomp]

theorem validationPartOfEntry_mk (locs : List String) (msg : String) :
    validationPartOfEntry (mkValidationEntry (locs, msg)) =
      .ok (String.intercalate "." locs ++ " - " ++ msg) := by
  calc validationPartOfEntry (mkValidationEntry (locs, msg))
      = (do
          let joined ← jsJoin (.jarr (locs.map .jstr)) "."
          Except.ok (joined ++ " - " ++ msg)) := rfl
    _ = .ok (String.intercalate "." locs ++ " - " ++ msg) := by
        rw [jsJoin_strings]
        rfl

theorem mapM_validation (ds : List (List String × String)) :
    (ds.map mkValidationEntry).mapM validationPartOfEntry =
      .ok (ds.map fun d => String.intercalate "." d.1 ++ " - " ++ d.2) := by
  induction ds with
  | nil => rfl
  | cons d rest ih =>
    obtain ⟨locs, msg⟩ := d
    rw [List.map_cons, List.mapM_cons, validationPartOfEntry_mk, List.map_cons, ih]
    rfl

theorem errorDetail_validation (ds : List (List String × String)) :
    errorDetailOfBody 422 (mkValidationBody ds) = .ok (joinedValidation ds) := by
  calc errorDetailOfBody 422 (mkValidationBody ds)
      = (do
          let parts ← (ds.map mkValidationEntry).mapM validationPartOfEntry
          pure (String.intercalate "; " parts) : Except String String) := rfl
    _ = .ok (joinedValidation ds) := by
        rw [mapM_validation]
        rfl

/-- **C8.** On an HTTP 422 response with a structured `detail` array of
`{loc, msg}` entries, the displayed error message is the backend's
per-field messages joined into one line (`loc.join('.') - msg`, joined
by `'; '`); for
`detail = [{loc: ["body", "current_charge_percent"], msg: "field required"}]`
that message contains both `"current_charge_percent"` and
`"field required"`. -/
theorem c8_validation_messages (p : FetchPageState) (ds : List (List String × String))
    (h : joinedValidation ds ≠ "") :
    (settleFetch p (.response ⟨false, 422, .ok (mkValidationBody ds)⟩)).error
      = some (joinedValidation ds) ∧
    strContains (joinedValidation [(["body", "current_charge_percent"], "field required")])
      "current_charge_percent" = true ∧
    strContains (joinedValidation [(["body", "current_charge_percent"], "field required")])
      "field required" = true := by
  refine ⟨?_, by decide, by decide⟩
  simp [settleFetch, buildErrorDetail, errorDetail_validation, h]

theorem c8_witness :
    joinedValidation [(["body", "current_charge_percent"], "field required")] ≠ "" ∧
    (settleFetch ⟨false, none, none⟩ (.response ⟨false, 422,
        .ok (mkValidationBody [(["body", "current_charge_percent"], "field required")])⟩)).error
      = some (joinedValidation [(["body", "current_charge_percent"], "field required")]) :=
  ⟨by decide,
    (c8_validation_messages ⟨false, none, none⟩
      [(["body", "current_charge_percent"], "field required")] (by decide)).1⟩

end SmartRoute
